import Mathlib

/-!
Verification of the EzPyMcpTools specification against the source.

Shallow embedding of the Python sources:
  - src/utils/math.py        : arithmetic operations returning result/error dicts
  - src/utils/weather.py     : temperature-unit lookup and forecast fetch
  - src/utils/ip_address.py  : public-IP lookup
  - src/utils/user_information.py and src/utils/user_info.py : profile operations
  - src/utils.py             : CLI discovery and argument coercion/dispatch
  - src/mcp_server.py        : tool-protocol (MCP) registration

Python dicts become association lists in insertion order; numbers are
modelled exactly (Int / Rat, and Real where pi is involved); a raised
exception becomes Except.error.
-/

/-- Value type for the result mappings of src/utils/math.py: operations
return either a number under "result" or a message under "error". -/
inductive MVal where
  | num (q : ℚ)
  | int (n : ℤ)
  | str (s : String)
deriving DecidableEq

/-- Result mapping of a math operation (Python dict, insertion order). -/
abbrev MDict := List (String × MVal)

/-- Embedding of divide from src/utils/math.py lines 22-26:
returns an error dict on b == 0, else the quotient under "result". -/
def divide (a b : ℚ) : MDict :=
  if b = 0 then [("error", .str "Division by zero")]
  else [("result", .num (a / b))]

/-- Embedding of factorial from src/utils/math.py lines 53-57:
error dict for negative n, else math.factorial n (exact integer). -/
def factorial (n : ℤ) : MDict :=
  if n < 0 then [("error", .str "Factorial undefined for negative numbers")]
  else [("result", .int (Nat.factorial n.toNat : ℤ))]

/-- Dict over real values, for the degree/radian conversions whose exact
semantics involve pi. -/
abbrev RDict := List (String × ℝ)

/-- Real-number semantics of CPython math.radians: x * (pi / 180). -/
noncomputable def math_radians (x : ℝ) : ℝ := x * (Real.pi / 180)

/-- Real-number semantics of CPython math.degrees: x * (180 / pi). -/
noncomputable def math_degrees (x : ℝ) : ℝ := x * (180 / Real.pi)

/-- Embedding of degrees_to_radians from src/utils/math.py lines 113-115. -/
noncomputable def degrees_to_radians (degrees : ℝ) : RDict :=
  [("result", math_radians degrees)]

/-- Embedding of radians_to_degrees from src/utils/math.py lines 118-120. -/
noncomputable def radians_to_degrees (radians : ℝ) : RDict :=
  [("result", math_degrees radians)]

/-- Extract the "result" entry of a real-valued result dict (0 if absent). -/
noncomputable def RDict.resultVal (d : RDict) : ℝ :=
  ((d.lookup "result").getD 0)

/- ── weather.py : temperature unit lookup ─────────────────────────── -/

/-- Characters Python str.strip removes by default (ASCII whitespace). -/
def isPySpace (c : Char) : Bool :=
  c = ' ' || c = '\t' || c = '\n' || c = '\x0d' || c = '\x0b' || c = '\x0c'

/-- Model of Python str.strip(): drop leading and trailing whitespace. -/
def pyStrip (s : String) : String :=
  String.mk (((s.toList.dropWhile isPySpace).reverse.dropWhile isPySpace).reverse)

/-- Model of Python str.upper() restricted to ASCII inputs. -/
def pyUpper (s : String) : String :=
  String.mk (s.toList.map Char.toUpper)

/-- Embedding of the _FAHRENHEIT_ALPHA2 set, src/utils/weather.py lines 14-22. -/
def _FAHRENHEIT_ALPHA2 : List String :=
  ["US", "BS", "KY", "LR", "PW", "FM", "MH"]

/-- Embedding of the _ALPHA3_TO_ALPHA2 map, src/utils/weather.py lines 25-33. -/
def _ALPHA3_TO_ALPHA2 : List (String × String) :=
  [("USA", "US"), ("BHS", "BS"), ("CYM", "KY"), ("LBR", "LR"),
   ("PLW", "PW"), ("FSM", "FM"), ("MHL", "MH")]

/-- Embedding of temperature_unit_for_country, src/utils/weather.py lines
335-358: strip and uppercase the code, map alpha-3 codes through the
table when present, and report fahrenheit exactly for the fixed set. -/
def temperature_unit_for_country (country_code : String) :
    List (String × String) :=
  let upper0 := pyUpper (pyStrip country_code)
  let upper := if upper0.length = 3
    then (_ALPHA3_TO_ALPHA2.lookup upper0).getD upper0
    else upper0
  let unit := if _FAHRENHEIT_ALPHA2.contains upper then "fahrenheit"
    else "celsius"
  [("country_code", upper), ("default_unit", unit)]

/-- Normalization of a country code as the specification words it:
the trimmed, uppercased, alpha-3-normalized input (used to compare the
spec reading of C10 against the code). -/
def spec_normalized_code (country_code : String) : String :=
  let u := pyUpper (pyStrip country_code)
  if u.length = 3 then (_ALPHA3_TO_ALPHA2.lookup u).getD u else u

/-- Product form of the factorial: 1·2·…·n equals n!. -/
theorem prod_Icc_one_eq_factorial (n : ℕ) :
    (∏ i in Finset.Icc 1 n, i) = Nat.factorial n := by
  induction n with
  | zero => simp
  | succ k ih =>
    rw [Finset.prod_Icc_succ_top (Nat.succ_le_succ (Nat.zero_le k)), ih,
      Nat.factorial_succ, Nat.mul_comm]

/- ── theorems for the math and unit-lookup claims ─────────────────── -/

/-- C6: for b ≠ 0, divide a b returns the mapping whose "result" value is
a / b; for b = 0 it returns a mapping with an "error" key and no
"result" key. -/
theorem divide_result_and_error_spec (a b : ℚ) :
    (b ≠ 0 → divide a b = [("result", MVal.num (a / b))]) ∧
    (b = 0 → (divide a b).lookup "error" ≠ none ∧
      (divide a b).lookup "result" = none) := by
  constructor
  · intro h
    simp [divide, h]
  · intro h
    subst h
    simp [divide, List.lookup]

/-- Witness for C6 at a = 8, b = 2 and at b = 0. -/
theorem divide_result_and_error_spec_witness :
    divide 8 2 = [("result", MVal.num (8 / 2))] ∧
    ((divide 8 0).lookup "error" ≠ none ∧
      (divide 8 0).lookup "result" = none) :=
  ⟨(divide_result_and_error_spec 8 2).1 (by norm_num),
   (divide_result_and_error_spec 8 0).2 rfl⟩

/-- C7: for n ≥ 0, factorial n returns the exact product 1·2·…·n under
"result" (and 1 for n = 0, the empty product); for n < 0 the returned
mapping has an "error" key. -/
theorem factorial_prod_spec (n : ℤ) :
    (0 ≤ n → (factorial n).lookup "result" =
      some (MVal.int ((∏ i in Finset.Icc 1 n.toNat, i : ℕ) : ℤ))) ∧
    (n < 0 → (factorial n).lookup "error" ≠ none) := by
  constructor
  · intro h
    simp [factorial, not_lt.mpr h, List.lookup, prod_Icc_one_eq_factorial]
  · intro h
    simp [factorial, h, List.lookup]

/-- Witness for C7 at n = 5 and n = -1. -/
theorem factorial_prod_spec_witness :
    ((factorial 5).lookup "result" =
      some (MVal.int ((∏ i in Finset.Icc 1 (5:ℤ).toNat, i : ℕ) : ℤ))) ∧
    (factorial (-1)).lookup "error" ≠ none :=
  ⟨(factorial_prod_spec 5).1 (by norm_num),
   (factorial_prod_spec (-1)).2 (by norm_num)⟩

/-- C8: the two unit conversions round-trip exactly in real arithmetic:
feeding the "result" of radians_to_degrees x into degrees_to_radians
yields x (hence within any floating-point tolerance). -/
theorem degrees_radians_roundtrip (x : ℝ) :
    (degrees_to_radians ((radians_to_degrees x).resultVal)).lookup "result"
      = some x := by
  simp [degrees_to_radians, radians_to_degrees, RDict.resultVal,
    math_radians, math_degrees, List.lookup]
  field_simp

/-- C9: concrete evaluations of temperature_unit_for_country at "US",
"FR" and "USA", the alpha-3 input agreeing with the alpha-2 one. -/
theorem temperature_unit_concrete_spec :
    temperature_unit_for_country "US" =
      [("country_code", "US"), ("default_unit", "fahrenheit")] ∧
    temperature_unit_for_country "FR" =
      [("country_code", "FR"), ("default_unit", "celsius")] ∧
    temperature_unit_for_country "USA" = temperature_unit_for_country "US" := by
  refine ⟨by decide, by decide, by decide⟩

/-- C10: temperature_unit_for_country is total with no "error" key: for
every input string the result has exactly the keys "country_code" and
"default_unit", the former carrying the trimmed, uppercased,
alpha-3-normalized input and the latter "fahrenheit" exactly when that
normalized code is in the Fahrenheit set, "celsius" otherwise. -/
theorem temperature_unit_total_spec (s : String) :
    (temperature_unit_for_country s).lookup "error" = none ∧
    (temperature_unit_for_country s).map Prod.fst =
      ["country_code", "default_unit"] ∧
    (temperature_unit_for_country s).lookup "country_code" =
      some (spec_normalized_code s) ∧
    (temperature_unit_for_country s).lookup "default_unit" =
      some (if _FAHRENHEIT_ALPHA2.contains (spec_normalized_code s)
        then "fahrenheit" else "celsius") := by
  simp [temperature_unit_for_country, spec_normalized_code, List.lookup]

/- ── JSON-style values for the remaining operations ───────────────── -/

/-- JSON-representable Python value, as produced by json.load and by the
profile and network operations (string, integer, null, list, dict). -/
inductive JVal where
  | jnull
  | jstr (s : String)
  | jint (n : ℤ)
  | jlist (xs : List JVal)
  | jdict (m : List (String × JVal))

/-- Python dict with JSON-style values, in insertion order. -/
abbrev PyDict := List (String × JVal)

/-- Check whether the needle occurs contiguously in the haystack. -/
def listHasInfix (needle : List Char) : List Char → Bool
  | [] => needle.isEmpty
  | c :: rest => needle.isPrefixOf (c :: rest) || listHasInfix needle rest

/-- Model of the Python substring test (needle in haystack). -/
def pyInStr (needle hay : String) : Bool :=
  listHasInfix needle.toList hay.toList

/-- Model of org.split(" ", 1)[1]: everything after the first space
(callers guard on the space being present). -/
def afterFirstSpace (s : String) : String :=
  match s.splitOn " " with
  | [] => s
  | [_] => s
  | _ :: rest => String.intercalate " " rest

/- ── ip_address.py ────────────────────────────────────────────────── -/

/-- Decoded payload of the ipinfo.io response, with the data.get(...)
defaults of src/utils/ip_address.py lines 21-31 already applied (absent
fields become ""). -/
structure IpInfo where
  ip : String
  org : String
  country : String
  region : String
  city : String

/-- Embedding of my_public_ip_address, src/utils/ip_address.py lines 8-35.
The fetch argument models Request + urlopen + json.loads of the ipinfo
URL; Except.error is a raised transport exception. The source has no
try/except, so a fetch failure propagates unchanged. The source then
serializes the result mapping with json.dumps before returning; the
mapping itself is returned here, the stdlib serialization being
irrelevant to the claims. -/
def my_public_ip_address (fetch : Except String IpInfo) :
    Except String PyDict := do
  let data ← fetch
  let isp_name := if pyInStr " " data.org then afterFirstSpace data.org
    else data.org
  return [("public_ip", .jstr data.ip),
    ("physical_location", .jdict
      [("country", .jstr data.country),
       ("state_province", .jstr data.region),
       ("city", .jstr data.city)]),
    ("isp_name", .jstr isp_name)]

/- ── weather.py : current_with_forecast ───────────────────────────── -/

/-- Pure regex extraction that src/utils/weather.py performs on the
fetched HTML: _html_to_markdown (line 285), the panel-title _find
(line 297), _parse_current (line 308) and _parse_forecast (line 309).
The forecast claims quantify over arbitrary extraction results. -/
structure NwsParsed where
  markdown : String
  location : String
  current : List (String × String)
  forecast : List (List (String × String))

/-- Embedding of current_with_forecast, src/utils/weather.py lines
255-332. fetch models urlopen on the URL built from the coordinates
(Except.error = raised transport exception); parse bundles the pure
HTML extraction helpers; conv is _convert_temp_str with celsius=True,
the only way the source calls it; sysPrefersCelsius is the ambient
_prefer_celsius() probe. The source wraps only the fetch in
try/except, returning an error mapping on failure. -/
def current_with_forecast (unit : String)
    (fetch : Except String String)
    (parse : String → NwsParsed)
    (conv : String → String)
    (sysPrefersCelsius : Bool) :
    Except String PyDict :=
  match fetch with
  | .error e => .ok [("error", .jstr ("Failed to fetch weather: " ++ e))]
  | .ok html =>
    let p := parse html
    if p.markdown = "" || !(pyInStr "forecast" (String.mk (p.markdown.toList.map Char.toLower))) then
      .ok [("error", .jstr
        "No forecast data found. Coordinates may be outside the US or invalid.")]
    else
      let norm := String.mk ((pyStrip unit).toList.map Char.toLower)
      let celsius :=
        if norm = "c" || norm = "celsius" then true
        else if norm = "f" || norm = "fahrenheit" then false
        else sysPrefersCelsius
      let current := if celsius then
          p.current.map (fun kv =>
            if kv.1 = "temperature" then (kv.1, conv kv.2) else kv)
        else p.current
      let forecast := if celsius then
          p.forecast.map (fun per => per.map (fun kv =>
            if kv.1 = "temperature" || kv.1 = "detail" then (kv.1, conv kv.2)
            else kv))
        else p.forecast
      .ok [("location", .jstr p.location),
        ("current", .jdict (current.map (fun kv => (kv.1, .jstr kv.2)))),
        ("forecast", .jlist (forecast.map (fun per =>
          .jdict (per.map (fun kv => (kv.1, .jstr kv.2)))))),
        ("unit", .jstr (if celsius then "celsius" else "fahrenheit"))]

/-- C2 counterexample: on a transport failure the public-IP lookup
propagates the raw exception (Except.error) instead of returning a
mapping with an "error" key, refuting the claim for that operation. -/
theorem public_ip_propagates_counterexample :
    my_public_ip_address (.error "URLError: timed out")
      = .error "URLError: timed out" ∧
    (my_public_ip_address (.error "URLError: timed out")).toOption = none := by
  exact ⟨rfl, rfl⟩

/-- C2 amended: the weather fetch wraps any transport failure into a
mapping with an "error" key (for every extraction, conversion, unit and
system preference), while the public-IP lookup propagates every raw
transport exception unchanged. -/
theorem network_failure_behaviour (unit e : String)
    (parse : String → NwsParsed) (conv : String → String)
    (sysC : Bool) :
    current_with_forecast unit (.error e) parse conv sysC
      = .ok [("error", .jstr ("Failed to fetch weather: " ++ e))] ∧
    my_public_ip_address (.error e) = .error e := by
  exact ⟨rfl, rfl⟩

/- ── utils.py : CLI argument coercion and call binding ────────────── -/

/-- Declared type hint of a parameter as used by the coercion in
src/utils.py lines 127-131: exactly int, exactly float, or anything
else (passed through as string). -/
inductive THint where
  | tint
  | tfloat
  | tother
deriving DecidableEq

/-- One declared parameter: its type hint and whether it has a default
(Python puts defaulted parameters after the required ones). -/
structure Param where
  hint : THint
  hasDefault : Bool

/-- Coerced CLI argument value. -/
inductive CliVal where
  | vstr (s : String)
  | vint (n : ℤ)
  | vfloat (q : ℚ)
deriving DecidableEq

/-- Numeric value of a list of decimal digit characters. -/
def digitsToNat (ds : List Char) : ℕ :=
  ds.foldl (fun n c => 10 * n + (c.toNat - 48)) 0

/-- Split a character list at every occurrence of the separator. -/
def splitOnChar (sep : Char) (ds : List Char) : List (List Char) :=
  ds.foldr
    (fun c acc =>
      if c = sep then [] :: acc
      else match acc with
        | g :: gs => (c :: g) :: gs
        | [] => [[c]])
    [[]]

/-- Model of Python int(arg): optional sign and decimal digits after
stripping whitespace. -/
def pyParseInt (s : String) : Option ℤ :=
  let t := pyStrip s
  match t.toList with
  | [] => none
  | '-' :: ds => if ds ≠ [] && ds.all Char.isDigit
      then some (-(digitsToNat ds : ℤ)) else none
  | '+' :: ds => if ds ≠ [] && ds.all Char.isDigit
      then some ((digitsToNat ds : ℤ)) else none
  | ds => if ds.all Char.isDigit then some ((digitsToNat ds : ℤ))
      else none

/-- Model of Python float(arg) on plain decimal literals: optional sign,
digits, optional fractional part (exact rational value). -/
def pyParseFloat (s : String) : Option ℚ :=
  let t := pyStrip s
  let core : List Char → Option ℚ := fun ds =>
    match splitOnChar '.' ds with
    | [w] => if w ≠ [] && w.all Char.isDigit
        then some (digitsToNat w : ℚ) else none
    | [w, f] => if w.all Char.isDigit && f ≠ [] && f.all Char.isDigit
        then some ((digitsToNat w : ℚ) +
          (digitsToNat f : ℚ) / ((10 : ℚ) ^ f.length))
        else none
    | _ => none
  match t.toList with
  | '-' :: ds => (core ds).map Neg.neg
  | '+' :: ds => core ds
  | ds => core ds

/-- Coercion of one positional string argument against one parameter,
src/utils.py lines 127-131: int and float hints parse the string (a
parse failure is the raised ValueError), anything else passes through. -/
def coerceArg (hint : THint) (arg : String) : Except String CliVal :=
  match hint with
  | .tint =>
    match pyParseInt arg with
    | some n => .ok (.vint n)
    | none => .error ("ValueError: invalid literal for int(): " ++ arg)
  | .tfloat =>
    match pyParseFloat arg with
    | some q => .ok (.vfloat q)
    | none => .error ("ValueError: could not convert string to float: " ++ arg)
  | .tother => .ok (.vstr arg)

/-- The zip of src/utils.py lines 122-131: arguments and parameters are
paired up to the shorter list (strict=False), each argument coerced in
order; the first failing coercion propagates. -/
def coerceArgs : List String → List Param → Except String (List CliVal)
  | [], _ => .ok []
  | _, [] => .ok []
  | a :: as, p :: ps => do
    let v ← coerceArg p.hint a
    let vs ← coerceArgs as ps
    return v :: vs

/-- Number of parameters without a default. -/
def requiredCount (ps : List Param) : ℕ :=
  (ps.filter (fun p => !p.hasDefault)).length

/-- Python call binding for func(*vals): positional binding succeeds
exactly when the value count is between the required parameter count
and the total parameter count; otherwise the call raises TypeError. -/
def bindCall (ps : List Param) (vals : List CliVal) :
    Except String (List CliVal) :=
  if requiredCount ps ≤ vals.length ∧ vals.length ≤ ps.length
    then .ok vals
    else .error "TypeError: positional argument count mismatch"

/-- Embedding of the invocation path of main, src/utils.py lines
119-134: coerce the arguments pairwise (zip truncating to the shorter
list), then bind the call; the coerced-and-bound argument list is the
tuple the operation is invoked with. -/
def cliInvoke (ps : List Param) (args : List String) :
    Except String (List CliVal) := do
  let vals ← coerceArgs args ps
  bindCall ps vals

/-- Signature of utils.math.add (two float parameters, no defaults). -/
def addParams : List Param := [⟨.tfloat, false⟩, ⟨.tfloat, false⟩]

/-- Coercion over parameters that are neither int- nor float-hinted
passes the first min(|args|, |params|) arguments through unchanged. -/
theorem coerceArgs_all_other (args : List String) (ps : List Param)
    (h : ∀ p ∈ ps, p.hint = THint.tother) :
    coerceArgs args ps = .ok ((args.take ps.length).map CliVal.vstr) := by
  induction args generalizing ps with
  | nil => cases ps <;> simp [coerceArgs]
  | cons a as ih =>
    cases ps with
    | nil => simp [coerceArgs]
    | cons p ps' =>
      have hp : p.hint = THint.tother := h p (by simp)
      have hps : ∀ q ∈ ps', q.hint = THint.tother := fun q hq => h q (by simp [hq])
      simp only [coerceArgs, hp, coerceArg, ih ps' hps, List.take_succ_cons,
        List.map_cons]
      rfl

/-- C3 counterexample: invoking utils.math.add through the CLI with three
positional arguments succeeds with the third argument silently dropped
by the truncating zip, instead of raising a call-binding usage error. -/
theorem cli_surplus_args_counterexample :
    (cliInvoke addParams ["1", "2", "3"]).toOption
      = some [CliVal.vfloat 1, CliVal.vfloat 2] := by decide

/-- C3 amended: with fewer arguments than required parameters the CLI
invocation fails at the call-binding stage, but arguments beyond the
declared parameter count are silently discarded by the truncating zip
and the call succeeds (shown for pass-through parameter hints, where no
coercion error can interfere). -/
theorem cli_arity_behaviour (ps : List Param) (args : List String)
    (h : ∀ p ∈ ps, p.hint = THint.tother) :
    (args.length < requiredCount ps →
      cliInvoke ps args
        = .error "TypeError: positional argument count mismatch") ∧
    (ps.length ≤ args.length →
      cliInvoke ps args = .ok ((args.take ps.length).map CliVal.vstr)) := by
  have hco := coerceArgs_all_other args ps h
  have hreq_le : requiredCount ps ≤ ps.length := List.length_filter_le _ _
  have hred : cliInvoke ps args
      = bindCall ps ((args.take ps.length).map CliVal.vstr) := by
    unfold cliInvoke
    rw [hco]
    rfl
  have hlen : ((args.take ps.length).map CliVal.vstr).length
      = min ps.length args.length := by
    simp [List.length_take]
  constructor
  · intro hlt
    rw [hred]
    unfold bindCall
    rw [if_neg]
    rw [hlen]
    omega
  · intro hge
    rw [hred]
    unfold bindCall
    rw [if_pos]
    rw [hlen]
    constructor <;> omega

/-- Witness for C3 amended: one required pass-through parameter; zero
arguments raise the binding error, two arguments succeed with the
second discarded. -/
theorem cli_arity_behaviour_witness :
    cliInvoke [⟨THint.tother, false⟩] []
      = .error "TypeError: positional argument count mismatch" ∧
    cliInvoke [⟨THint.tother, false⟩] ["a", "b"]
      = .ok [CliVal.vstr "a"] := by
  refine ⟨(cli_arity_behaviour [⟨THint.tother, false⟩] [] (by decide)).1
    (by decide), ?_⟩
  have h := (cli_arity_behaviour [⟨THint.tother, false⟩] ["a", "b"]
    (by decide)).2 (by decide)
  simpa using h

/- ── user profile operations ──────────────────────────────────────── -/

mutual

/-- Python repr() of a JSON value (quote escaping inside strings is not
needed for the profile data). -/
def pyRepr : JVal → String
  | .jnull => "None"
  | .jstr s => "\x27" ++ s ++ "\x27"
  | .jint n => toString n
  | .jlist xs => "[" ++ pyReprJoin xs ++ "]"
  | .jdict m => "\x7b" ++ pyReprJoinPairs m ++ "\x7d"

/-- Comma join of element reprs. -/
def pyReprJoin : List JVal → String
  | [] => ""
  | [x] => pyRepr x
  | x :: xs => pyRepr x ++ ", " ++ pyReprJoin xs

/-- Comma join of key: value reprs. -/
def pyReprJoinPairs : List (String × JVal) → String
  | [] => ""
  | [kv] => "\x27" ++ kv.1 ++ "\x27: " ++ pyRepr kv.2
  | kv :: rest => "\x27" ++ kv.1 ++ "\x27: " ++ pyRepr kv.2 ++ ", " ++
      pyReprJoinPairs rest
end

/-- Python str(): identity on strings, repr-style on everything else. -/
def pyStr : JVal → String
  | .jstr s => s
  | v => pyRepr v

/-- Python truthiness of a JSON value. -/
def pyTruthy : JVal → Bool
  | .jnull => false
  | .jstr s => s != ""
  | .jint n => n != 0
  | .jlist xs => !xs.isEmpty
  | .jdict m => !m.isEmpty

/-- Whether str(item).strip() is non-empty: strings must have non-blank
content; str() of null, numbers, lists and dicts is never blank. -/
def strOfValStripNonempty : JVal → Bool
  | .jstr s => pyStrip s != ""
  | _ => true

/-- Python dict lookup data.get(k) over the association list (keys are
unique, as produced by json.load). -/
def dictGet (d : PyDict) (k : String) : Option JVal :=
  (d.find? (fun kv => kv.1 == k)).map (fun kv => kv.2)

/-- Python membership test (k in d). -/
def dictHasKey (d : PyDict) (k : String) : Bool :=
  d.any (fun kv => kv.1 == k)

/-- Python d[k] = v: replace in place when the key exists, else append
(dict insertion-order semantics). -/
def dictSet (d : PyDict) (k : String) (v : JVal) : PyDict :=
  if dictHasKey d k then
    d.map (fun kv => if kv.1 == k then (k, v) else kv)
  else d ++ [(k, v)]

/-- Python d.update(other): set every binding of other, in order. -/
def dictUpdate (d other : PyDict) : PyDict :=
  other.foldl (fun acc kv => dictSet acc kv.1 kv.2) d

/-- The required profile fields, src/utils/user_information.py line 97
(the misspelled "addresss" is the source's own key). -/
def _REQUIRED_FIELDS : List String :=
  ["birthday", "email", "phone", "addresss"]

/-- Blank test on one component of a structured name value:
str(m.get(k, "")).strip() is empty. -/
def nameComponentBlank (m : List (String × JVal)) (k : String) : Bool :=
  match dictGet m k with
  | none => true
  | some v => pyStrip (pyStr v) == ""

/-- Embedding of _is_missing, src/utils/user_information.py lines
100-115; the value argument is data.get(field), none when absent. -/
def _is_missing (field : String) (value : Option JVal) : Bool :=
  if field == "name" then
    match value with
    | some (.jdict m) =>
      nameComponentBlank m "first" && nameComponentBlank m "middle" &&
        nameComponentBlank m "last"
    | none => true
    | some v => !(pyTruthy v && strOfValStripNonempty v)
  else if field == "addresss" then
    match value with
    | some (.jlist xs) => !(xs.any strOfValStripNonempty)
    | _ => true
  else
    match value with
    | none => true
    | some v => !(pyTruthy v)

/-- Required fields absent or invalid in the loaded configuration, as
computed in src/utils/user_information.py lines 212-216. -/
def missingFields (data : PyDict) : List String :=
  _REQUIRED_FIELDS.filter
    (fun f => !(dictHasKey data f) || _is_missing f (dictGet data f))

/-- Join strings with ", " (Python ", ".join). -/
def commaJoin : List String → String
  | [] => ""
  | [x] => x
  | x :: xs => x ++ ", " ++ commaJoin xs

/-- Join strings with " " (Python " ".join). -/
def spaceJoin : List String → String
  | [] => ""
  | [x] => x
  | x :: xs => x ++ " " ++ spaceJoin xs

/-- The FileNotFoundError message of src/utils/user_information.py lines
219-223 (the configuration path rendered by its file name). -/
def pdMissingMsg (missing : List String) : String :=
  "user.data.json is missing or incomplete. " ++
    "Run \x27make user_info\x27 to set it up. Missing fields: " ++
    commaJoin missing

/-- Calendar date as held by datetime.date. -/
structure PyDate where
  year : ℤ
  month : ℕ
  day : ℕ
deriving DecidableEq

/-- Gregorian leap-year rule. -/
def isLeapYear (y : ℤ) : Bool :=
  (y % 4 == 0 && y % 100 != 0) || y % 400 == 0

/-- Days in a month of a given year. -/
def daysInMonth (y : ℤ) (m : ℕ) : ℕ :=
  if m = 2 then (if isLeapYear y then 29 else 28)
  else if m = 4 ∨ m = 6 ∨ m = 9 ∨ m = 11 then 30
  else 31

/-- Model of datetime.date.fromisoformat on its canonical YYYY-MM-DD
form: none models the raised ValueError. -/
def parseIsoDate (s : String) : Option PyDate :=
  match splitOnChar '-' s.toList with
  | [y, m, d] =>
    if y.length = 4 && m.length = 2 && d.length = 2 &&
        y.all Char.isDigit && m.all Char.isDigit && d.all Char.isDigit then
      let yr : ℤ := (digitsToNat y : ℤ)
      let mo := digitsToNat m
      let dy := digitsToNat d
      if 1 ≤ mo && mo ≤ 12 && 1 ≤ dy && dy ≤ daysInMonth yr mo then
        some ⟨yr, mo, dy⟩
      else none
    else none
  | _ => none

/-- Embedding of _compute_age, src/utils/user_information.py lines 85-93
(identical in src/utils/user_info.py lines 32-36): parse the birthday
string (ValueError on failure) and subtract one when the birthday has
not yet occurred this year; today is the ambient date.today(). -/
def _compute_age (birthday : String) (today : PyDate) : Except String ℤ :=
  match parseIsoDate birthday with
  | none => .error ("ValueError: Invalid isoformat string: \x27" ++
      birthday ++ "\x27")
  | some born => .ok (today.year - born.year -
      (if today.month < born.month ∨
          (today.month = born.month ∧ today.day < born.day)
       then 1 else 0))

/-- Embedding of personal_data, src/utils/user_information.py lines
199-251. config is the parsed user.data.json (none when the file does
not exist); username and fullname are the ambient _get_username() and
_get_full_name() results; Except.error is a raised exception. -/
def personal_data : Option PyDict → String → String → PyDate →
    Except String PyDict
  | none, _, _, _ =>
    -- a missing file yields missing = _REQUIRED_FIELDS and the same raise
    .error ("FileNotFoundError: " ++ pdMissingMsg _REQUIRED_FIELDS)
  | some data, username, fullname, today =>
    if missingFields data ≠ [] then
      .error ("FileNotFoundError: " ++ pdMissingMsg (missingFields data))
    else
    let raw_name := dictGet data "name"
    let rp : JVal × String :=
      if _is_missing "name" raw_name then (.jstr username, fullname)
      else
        match raw_name with
        | some (.jdict m) =>
          let first := pyStrip (pyStr ((dictGet m "first").getD (.jstr "")))
          let middle := pyStrip (pyStr ((dictGet m "middle").getD (.jstr "")))
          let last := pyStrip (pyStr ((dictGet m "last").getD (.jstr "")))
          let joined := pyStrip
            (spaceJoin (([first, middle, last]).filter (fun p => p != "")))
          (.jdict m, if joined == "" then fullname else joined)
        | some v =>
          (v, if pyStrip (pyStr v) == "" then fullname else pyStrip (pyStr v))
        | none => (.jstr username, fullname)
    let info0 : PyDict := [("name", rp.1), ("long_name", .jstr rp.2)]
    let info1 := dictUpdate info0 data
    let info2 := dictSet (dictSet info1 "name" rp.1) "long_name" (.jstr rp.2)
    let bday := pyStr ((dictGet info2 "birthday").getD .jnull)
    match _compute_age bday today with
    | .error e => .error e
    | .ok age => .ok (dictSet info2 "age" (.jint age))

/-- Embedding of personal_information, src/utils/user_info.py lines
39-61: no field validation; the base name/long_name dict is updated
with the file contents and the age is computed from info["birthday"],
whose absence raises KeyError. -/
def personal_information : Option PyDict → String → String → PyDate →
    Except String PyDict
  | none, _, _, _ =>
    .error ("FileNotFoundError: user_info.log not found. " ++
      "Create it as a JSON file with these fields: " ++
      commaJoin _REQUIRED_FIELDS)
  | some data, username, fullname, today =>
    let info1 := dictUpdate
      [("name", .jstr username), ("long_name", .jstr fullname)] data
    match dictGet info1 "birthday" with
    | none => .error "KeyError: \x27birthday\x27"
    | some bv =>
      match _compute_age (pyStr bv) today with
      | .error e => .error e
      | .ok age => .ok (dictSet info1 "age" (.jint age))

/-- Absence of a key as a statement about all bindings. -/
theorem dictGet_eq_none_iff (d : PyDict) (k : String) :
    dictGet d k = none ↔ ∀ kv ∈ d, kv.1 ≠ k := by
  simp [dictGet, List.find?_eq_none]

/-- Setting a different key preserves the absence of a key. -/
theorem dictGet_dictSet_none (d : PyDict) (kn : String) (v : JVal)
    (k : String) (hne : kn ≠ k) (h : dictGet d k = none) :
    dictGet (dictSet d kn v) k = none := by
  rw [dictGet_eq_none_iff] at h ⊢
  intro kv hkv
  unfold dictSet at hkv
  by_cases hhas : dictHasKey d kn
  · simp only [hhas, if_true, List.mem_map] at hkv
    obtain ⟨orig, ho, heq⟩ := hkv
    by_cases he : orig.1 = kn
    · rw [he] at heq
      rw [if_pos (by simp)] at heq
      rw [← heq]
      exact hne
    · rw [if_neg (by simp [he])] at heq
      rw [← heq]
      exact h orig ho
  · simp only [hhas, Bool.false_eq_true, if_false, List.mem_append,
      List.mem_singleton] at hkv
    rcases hkv with ho | rfl
    · exact h kv ho
    · exact hne

/-- Updating with bindings that avoid a key preserves its absence. -/
theorem dictGet_dictUpdate_none (d0 data : PyDict) (k : String)
    (h0 : dictGet d0 k = none) (h1 : dictGet data k = none) :
    dictGet (dictUpdate d0 data) k = none := by
  induction data generalizing d0 with
  | nil => simpa [dictUpdate] using h0
  | cons kv rest ih =>
    rw [dictGet_eq_none_iff] at h1
    have hk : kv.1 ≠ k := h1 kv (by simp)
    have hrest : dictGet rest k = none := by
      rw [dictGet_eq_none_iff]
      intro x hx
      exact h1 x (by simp [hx])
    have hstep : dictUpdate d0 (kv :: rest)
        = dictUpdate (dictSet d0 kv.1 kv.2) rest := rfl
    rw [hstep]
    exact ih (dictSet d0 kv.1 kv.2)
      (dictGet_dictSet_none d0 kv.1 kv.2 k hk h0) hrest

/-- Every member of a list occurs contiguously in its comma join. -/
theorem commaJoin_contains (m : List String) (fld : String) (h : fld ∈ m) :
    ∃ pre post, commaJoin m = pre ++ fld ++ post := by
  induction m with
  | nil => cases h
  | cons x xs ih =>
    rcases List.mem_cons.mp h with rfl | hxs
    · cases xs with
      | nil =>
        refine ⟨"", "", ?_⟩
        show fld = "" ++ fld ++ ""
        rw [String.empty_append, String.append_empty]
      | cons y ys =>
        refine ⟨"", ", " ++ commaJoin (y :: ys), ?_⟩
        show fld ++ ", " ++ commaJoin (y :: ys)
          = "" ++ fld ++ (", " ++ commaJoin (y :: ys))
        rw [String.empty_append, String.append_assoc]
    · obtain ⟨pre, post, hp⟩ := ih hxs
      cases xs with
      | nil => cases hxs
      | cons y ys =>
        refine ⟨x ++ ", " ++ pre, post, ?_⟩
        show x ++ ", " ++ commaJoin (y :: ys) = x ++ ", " ++ pre ++ fld ++ post
        rw [hp]
        simp [String.append_assoc]

/-- Configuration used in the C5 counterexample: the file exists with a
valid birthday, phone and addresss, but the required email is absent. -/
def c5cfg : PyDict :=
  [("birthday", .jstr "1990-01-31"), ("phone", .jstr "+1-555-123-4567"),
   ("addresss", .jlist [.jstr "123 Main St"])]

/-- C5 counterexample: against a configuration file that exists but lacks
the required field "email", personal_information (src/utils/user_info.py)
returns a result instead of failing hard, refuting the claim for that
profile operation. -/
theorem profile_missing_field_counterexample :
    dictHasKey c5cfg "email" = false ∧
    "email" ∈ _REQUIRED_FIELDS ∧
    personal_information (some c5cfg) "jane" "Jane Doe" ⟨2026, 10, 12⟩
      = .ok [("name", .jstr "jane"), ("long_name", .jstr "Jane Doe"),
             ("birthday", .jstr "1990-01-31"),
             ("phone", .jstr "+1-555-123-4567"),
             ("addresss", .jlist [.jstr "123 Main St"]),
             ("age", .jint 36)] := by
  refine ⟨rfl, by decide, rfl⟩

/-- C5 amended: personal_data (src/utils/user_information.py) fails hard
on any incomplete existing configuration, with a message naming every
missing required field; personal_information (src/utils/user_info.py)
fails hard only when birthday itself is absent (a KeyError naming it),
and otherwise does not validate the remaining required fields. -/
theorem profile_missing_fields_behaviour :
    (∀ (data : PyDict) (u f : String) (t : PyDate),
      missingFields data ≠ [] →
      personal_data (some data) u f t
        = .error ("FileNotFoundError: " ++ pdMissingMsg (missingFields data)) ∧
      ∀ fld ∈ missingFields data, ∃ pre post,
        "FileNotFoundError: " ++ pdMissingMsg (missingFields data)
          = pre ++ fld ++ post) ∧
    (∀ (data : PyDict) (u f : String) (t : PyDate),
      dictGet data "birthday" = none →
      personal_information (some data) u f t
        = .error "KeyError: \x27birthday\x27") := by
  constructor
  · intro data u f t hmiss
    constructor
    · simp only [personal_data]
      rw [if_pos hmiss]
    · intro fld hfld
      obtain ⟨pre, post, hp⟩ := commaJoin_contains _ fld hfld
      refine ⟨"FileNotFoundError: " ++
        ("user.data.json is missing or incomplete. " ++
          "Run \x27make user_info\x27 to set it up. Missing fields: ") ++ pre,
        post, ?_⟩
      simp [pdMissingMsg, hp, String.append_assoc]
      rw [← String.append_assoc]
      rfl
  · intro data u f t hb
    have h1 : dictGet (dictUpdate
        [("name", JVal.jstr u), ("long_name", JVal.jstr f)] data)
        "birthday" = none :=
      dictGet_dictUpdate_none _ data "birthday" rfl hb
    simp only [personal_information]
    rw [h1]

/-- Witness for C5 amended: a configuration holding only an email makes
personal_data raise naming the other fields, and makes
personal_information raise the birthday KeyError. -/
theorem profile_missing_fields_behaviour_witness :
    personal_data (some [("email", JVal.jstr "jane@example.com")])
        "u" "f" ⟨2026, 10, 12⟩
      = .error ("FileNotFoundError: " ++ pdMissingMsg
          (missingFields [("email", JVal.jstr "jane@example.com")])) ∧
    personal_information (some [("email", JVal.jstr "jane@example.com")])
        "u" "f" ⟨2026, 10, 12⟩
      = .error "KeyError: \x27birthday\x27" :=
  ⟨(profile_missing_fields_behaviour.1 _ "u" "f" ⟨2026, 10, 12⟩
      (by decide)).1,
   profile_missing_fields_behaviour.2 _ "u" "f" ⟨2026, 10, 12⟩ rfl⟩

/- ── discovery and tool-protocol registration ─────────────────────── -/

/-- One function object visible as a module member: its attribute name
and the module it was defined in (Python obj.__module__). -/
structure PyMember where
  name : String
  definedIn : String
deriving DecidableEq

/-- One file of the scanned utils directory: its file name and the
function members that inspect.getmembers(module, inspect.isfunction)
yields for it, in getmembers order (sorted by name). -/
structure PyModuleFile where
  filename : String
  members : List PyMember
deriving DecidableEq

/-- Model of str.startswith("_"). -/
def startsWithUnderscore (s : String) : Bool :=
  match s.toList with
  | c :: _ => c = '_'
  | [] => false

/-- Namespace derived from the file name (module_path.stem: the name
without its ".py" extension). -/
def stem (f : PyModuleFile) : String :=
  String.mk (f.filename.toList.take (f.filename.toList.length - 3))

/-- Qualified import name, src/utils.py line 35 and src/mcp_server.py
line 50. -/
def moduleName (f : PyModuleFile) : String :=
  "utils." ++ stem f

/-- The member filter shared by src/utils.py lines 39-41 and
src/mcp_server.py lines 53-55: keep a function iff its name has no
leading underscore and it was defined in this very module. -/
def modulePublicFuncs (f : PyModuleFile) : List PyMember :=
  f.members.filter
    (fun m => !startsWithUnderscore m.name && (m.definedIn == moduleName f))

/-- The (namespace, operation) pairs registered by _discover_functions,
src/utils.py lines 26-47: files with a leading underscore are skipped
entirely, the rest contribute their filtered members. The input list is
the sorted(utils_dir.glob("*.py")) sequence. -/
def discoveredPairs (d : List PyModuleFile) : List (String × String) :=
  (d.filter (fun f => !startsWithUnderscore f.filename)).flatMap
    (fun f => (modulePublicFuncs f).map (fun m => (stem f, m.name)))

/-- The MCP tool names registered by _discover_and_register,
src/mcp_server.py lines 42-55: each kept function is passed through
_make_json_wrapper (functools.wraps preserves its original name, line
30 and 38) and handed to mcp.tool() with no explicit name, so the
protocol layer names the tool after the wrapped function itself. -/
def mcpToolNames (d : List PyModuleFile) : List String :=
  (d.filter (fun f => !startsWithUnderscore f.filename)).flatMap
    (fun f => (modulePublicFuncs f).map (fun m => m.name))

/-- Members of src/utils/date_time.py. -/
def dateTimeModule : PyModuleFile :=
  ⟨"date_time.py",
   [⟨"_detect_country_code_from_locale", "utils.date_time"⟩,
    ⟨"_get_country_codes", "utils.date_time"⟩,
    ⟨"_get_country_name", "utils.date_time"⟩,
    ⟨"_get_zone_tab", "utils.date_time"⟩,
    ⟨"configured_timezone", "utils.date_time"⟩,
    ⟨"get_current_datetime", "utils.date_time"⟩,
    ⟨"get_timezones", "utils.date_time"⟩]⟩

/-- Members of src/utils/datetime.py; available_timezones is imported
from zoneinfo (line 5) and is a plain function there. -/
def datetimeModule : PyModuleFile :=
  ⟨"datetime.py",
   [⟨"_detect_country_code_from_locale", "utils.datetime"⟩,
    ⟨"_get_country_codes", "utils.datetime"⟩,
    ⟨"_get_country_name", "utils.datetime"⟩,
    ⟨"_get_local_iana_timezone", "utils.datetime"⟩,
    ⟨"_get_zone_tab", "utils.datetime"⟩,
    ⟨"_resolve_timezone", "utils.datetime"⟩,
    ⟨"available_timezones", "zoneinfo"⟩,
    ⟨"configured_timezone", "utils.datetime"⟩,
    ⟨"country_timezones", "utils.datetime"⟩,
    ⟨"current", "utils.datetime"⟩]⟩

/-- Members of src/utils/ip_address.py. -/
def ipAddressModule : PyModuleFile :=
  ⟨"ip_address.py",
   [⟨"my_approximate_physical_location", "utils.ip_address"⟩,
    ⟨"my_public_ip_address", "utils.ip_address"⟩]⟩

/-- Members of src/utils/math.py. -/
def mathModule : PyModuleFile :=
  ⟨"math.py",
   [⟨"absolute", "utils.math"⟩, ⟨"acos", "utils.math"⟩,
    ⟨"add", "utils.math"⟩, ⟨"asin", "utils.math"⟩,
    ⟨"atan", "utils.math"⟩, ⟨"ceil", "utils.math"⟩,
    ⟨"constants", "utils.math"⟩, ⟨"cos", "utils.math"⟩,
    ⟨"degrees_to_radians", "utils.math"⟩, ⟨"divide", "utils.math"⟩,
    ⟨"factorial", "utils.math"⟩, ⟨"floor", "utils.math"⟩,
    ⟨"hypotenuse", "utils.math"⟩, ⟨"ln", "utils.math"⟩,
    ⟨"log", "utils.math"⟩, ⟨"modulo", "utils.math"⟩,
    ⟨"multiply", "utils.math"⟩, ⟨"power", "utils.math"⟩,
    ⟨"radians_to_degrees", "utils.math"⟩, ⟨"round_number", "utils.math"⟩,
    ⟨"sin", "utils.math"⟩, ⟨"square_root", "utils.math"⟩,
    ⟨"subtract", "utils.math"⟩, ⟨"tan", "utils.math"⟩]⟩

/-- Members of src/utils/text.py; lru_cache is imported from functools
(line 4) and is a plain function there; _get_snowball_stemmer is an
lru_cache wrapper object, not a function, so getmembers omits it. -/
def textModule : PyModuleFile :=
  ⟨"text.py",
   [⟨"_stem_word", "utils.text"⟩,
    ⟨"characters_count", "utils.text"⟩,
    ⟨"llm_tokenize", "utils.text"⟩,
    ⟨"lru_cache", "functools"⟩,
    ⟨"nlp_tokenize", "utils.text"⟩,
    ⟨"show_characters", "utils.text"⟩,
    ⟨"word_stem", "utils.text"⟩,
    ⟨"words_count", "utils.text"⟩]⟩

/-- Members of src/utils/user_info.py. -/
def userInfoModule : PyModuleFile :=
  ⟨"user_info.py",
   [⟨"_compute_age", "utils.user_info"⟩,
    ⟨"_get_full_name", "utils.user_info"⟩,
    ⟨"_get_username", "utils.user_info"⟩,
    ⟨"personal_information", "utils.user_info"⟩]⟩

/-- Members of src/utils/user_information.py. -/
def userInformationModule : PyModuleFile :=
  ⟨"user_information.py",
   [⟨"_ask_user", "utils.user_information"⟩,
    ⟨"_compute_age", "utils.user_information"⟩,
    ⟨"_ensure_user_info", "utils.user_information"⟩,
    ⟨"_get_full_name", "utils.user_information"⟩,
    ⟨"_get_username", "utils.user_information"⟩,
    ⟨"_is_missing", "utils.user_information"⟩,
    ⟨"personal_data", "utils.user_information"⟩]⟩

/-- Members of src/utils/weather.py. -/
def weatherModule : PyModuleFile :=
  ⟨"weather.py",
   [⟨"_convert_temp_str", "utils.weather"⟩,
    ⟨"_extract_temp_number", "utils.weather"⟩,
    ⟨"_f_to_c", "utils.weather"⟩,
    ⟨"_find", "utils.weather"⟩,
    ⟨"_html_to_markdown", "utils.weather"⟩,
    ⟨"_parse_current", "utils.weather"⟩,
    ⟨"_parse_forecast", "utils.weather"⟩,
    ⟨"_prefer_celsius", "utils.weather"⟩,
    ⟨"_strip_tags", "utils.weather"⟩,
    ⟨"current_with_forecast", "utils.weather"⟩,
    ⟨"temperature_unit_for_country", "utils.weather"⟩]⟩

/-- The scanned src/utils directory, in sorted(glob("*.py")) order. -/
def utilsDir : List PyModuleFile :=
  [dateTimeModule, datetimeModule, ipAddressModule, mathModule,
   textModule, userInfoModule, userInformationModule, weatherModule]

/-- Membership in the discovered pairs unfolded to its witnesses. -/
theorem mem_discoveredPairs (d : List PyModuleFile) (ns op : String) :
    (ns, op) ∈ discoveredPairs d ↔
      ∃ f ∈ d, startsWithUnderscore f.filename = false ∧ stem f = ns ∧
        ∃ m ∈ f.members, m.name = op ∧
          startsWithUnderscore m.name = false ∧
          m.definedIn = moduleName f := by
  simp only [discoveredPairs, modulePublicFuncs, List.mem_flatMap,
    List.mem_filter, List.mem_map, Bool.not_eq_eq_eq_not, Bool.not_true,
    Bool.and_eq_true, beq_iff_eq, Prod.mk.injEq]
  constructor
  · rintro ⟨f, ⟨hf, hu⟩, m, ⟨hm, hmu, hdef⟩, hst, hop⟩
    exact ⟨f, hf, hu, hst, m, hm, hop, hmu, hdef⟩
  · rintro ⟨f, hf, hu, hst, m, hm, hop, hmu, hdef⟩
    exact ⟨f, ⟨hf, hu⟩, m, ⟨hm, hmu, hdef⟩, hst, hop⟩

/-- C1 counterexample: the math add operation is discovered, yet no tool
named math__add is registered (the adapter registers the bare function
name), and configured_timezone is registered twice (from date_time.py
and datetime.py), so the registered tool names are not unique. -/
theorem mcp_tool_name_counterexample :
    ("math", "add") ∈ discoveredPairs utilsDir ∧
    "math__add" ∉ mcpToolNames utilsDir ∧
    (mcpToolNames utilsDir).count "configured_timezone" = 2 := by
  refine ⟨by decide, by decide, by decide⟩

/-- C1 amended: for every scanned directory the tool-protocol adapter
registers exactly one tool per discovered operation under the bare
operation name (the JSON wrapper preserves the wrapped function's
name), with no namespace prefix; on the actual utils directory these
names are not unique. -/
theorem mcp_registration_behaviour :
    (∀ d : List PyModuleFile,
      mcpToolNames d = (discoveredPairs d).map Prod.snd) ∧
    ¬ (mcpToolNames utilsDir).Nodup := by
  constructor
  · intro d
    simp only [mcpToolNames, discoveredPairs, List.map_flatMap, List.map_map]
    rfl
  · decide

/-- C4: a member of a non-underscore file is registered iff its name has
no leading underscore and it is defined in that module; underscore
files contribute no operations at all. Distinct stems (true of any real
directory listing) make the registration of a member unambiguous. -/
theorem discovery_filter_spec (d : List PyModuleFile)
    (hstem : (d.map stem).Nodup) :
    (∀ f ∈ d, startsWithUnderscore f.filename = false →
      (f.members.map PyMember.name).Nodup →
      ∀ m ∈ f.members,
        ((stem f, m.name) ∈ discoveredPairs d ↔
          (startsWithUnderscore m.name = false ∧
            m.definedIn = moduleName f))) ∧
    (∀ f ∈ d, startsWithUnderscore f.filename = true →
      ∀ op, (stem f, op) ∉ discoveredPairs d) := by
  constructor
  · intro f hf hu hnames m hm
    constructor
    · intro h
      obtain ⟨g, hg, hgu, hgst, m2, hm2, hm2name, hm2u, hm2def⟩ :=
        (mem_discoveredPairs d (stem f) m.name).mp h
      have hfg : g = f := List.inj_on_of_nodup_map hstem hg hf hgst
      subst hfg
      have hmm : m2 = m :=
        List.inj_on_of_nodup_map hnames hm2 hm hm2name
      subst hmm
      exact ⟨hm2u, hm2def⟩
    · intro ⟨hmu, hmdef⟩
      exact (mem_discoveredPairs d (stem f) m.name).mpr
        ⟨f, hf, hu, rfl, m, hm, rfl, hmu, hmdef⟩
  · intro f hf hu op h
    obtain ⟨g, hg, hgu, hgst, _, _, _, _, _⟩ :=
      (mem_discoveredPairs d (stem f) op).mp h
    have hfg : g = f := List.inj_on_of_nodup_map hstem hg hf hgst
    subst hfg
    rw [hu] at hgu
    cases hgu

/-- Witness for C4: the actual directory has distinct stems; the add
member of math.py satisfies both filter conditions and is registered;
the lru_cache member of text.py is imported from functools and the
instantiated equivalence confirms it is not registered. -/
theorem discovery_filter_spec_witness :
    (((stem mathModule, "add") ∈ discoveredPairs utilsDir) ↔
      (startsWithUnderscore "add" = false ∧
        "utils.math" = moduleName mathModule)) ∧
    (((stem textModule, "lru_cache") ∈ discoveredPairs utilsDir) ↔
      (startsWithUnderscore "lru_cache" = false ∧
        "functools" = moduleName textModule)) :=
  ⟨(discovery_filter_spec utilsDir (by decide)).1 mathModule (by decide)
      (by decide) (by decide) ⟨"add", "utils.math"⟩ (by decide),
   (discovery_filter_spec utilsDir (by decide)).1 textModule (by decide)
      (by decide) (by decide) ⟨"lru_cache", "functools"⟩ (by decide)⟩
